import Mathlib

/-!
Shallow embedding of the EmployeeManagementSystem backend (Node/Express +
Mongoose), for the payroll engine (`src/backend/controllers/paymentRecords.js`,
`src/backend/models/PaymentRecord.js`) and the attendance engine
(`src/backend/controllers/locations.js`, the `Location` model).

Modelling conventions:
- Mongo ObjectIds are `Nat`; `Date` values are `Int` (epoch milliseconds).
- JS `Number` is modelled as `ℚ` (the claims under study are structural,
  not about float rounding).
- A controller is a pure function from the database state and the request
  data to a response together with the new state.  An HTTP error response is
  the pair (status code, error message) actually produced by the controller.
- Fields no claim touches and that need real date formatting (the
  `payPeriod` display string built with `toLocaleDateString`) are omitted.
-/

namespace EMS

/-- An HTTP error response: the status code and the `error` message the
controller puts in the JSON body. -/
structure ErrResponse where
  status : Nat
  error : String
  deriving Repr, DecidableEq

/-! ## PaymentRecord data model (src/backend/models/PaymentRecord.js) -/

/-- One `{description, amount}` entry of `bonuses` or `deductions`. -/
structure MoneyItem where
  description : String
  amount : ℚ
  deriving Repr, DecidableEq

/-- The `overtime` subdocument: `{hours, rate, amount}`, each defaulting
to 0 in the schema. -/
structure Overtime where
  hours : ℚ
  rate : ℚ
  amount : ℚ
  deriving Repr, DecidableEq

/-- `paymentStatus` enum: `['pending', 'paid', 'cancelled']`. -/
inductive PayStatus where
  | pending
  | paid
  | cancelled
  deriving Repr, DecidableEq

/-- `paymentMethod` enum: `['bank_transfer', 'cash', 'check', 'other']`. -/
inductive PayMethod where
  | bank_transfer
  | cash
  | check
  | other
  deriving Repr, DecidableEq

/-- A persisted `PaymentRecord` document.  `rid` is the Mongo `_id`.
The `payPeriod` display string is omitted (pure formatting, untouched by
any claim). -/
structure PaymentRecord where
  rid : Nat
  employee : Nat
  weekStartDate : Int
  weekEndDate : Int
  basicSalary : ℚ
  overtime : Overtime
  bonuses : List MoneyItem
  deductions : List MoneyItem
  grossPay : ℚ
  totalDeductions : ℚ
  netPay : ℚ
  paymentStatus : PayStatus
  paymentDate : Option Int
  paymentMethod : PayMethod
  notes : Option String
  uploadedBy : Nat
  isViewed : Bool
  viewedAt : Option Int
  deriving Repr, DecidableEq

/-- JS `x || 0` on a number: `0` is falsy, any other number is truthy. -/
def jsOr0 (x : ℚ) : ℚ := if x = 0 then 0 else x

/-- `reduce((sum, b) => sum + (b.amount || 0), 0)` over a bonus/deduction
list. -/
def sumAmounts (l : List MoneyItem) : ℚ :=
  l.foldl (fun s b => s + jsOr0 b.amount) 0

/-- The `pre('save')` middleware of `paymentRecordSchema` (PaymentRecord.js
lines 161–197): recomputes `totalDeductions`, `grossPay` and `netPay` from
the current field values.  (`payPeriod` regeneration is display formatting,
omitted.) -/
def preSave (r : PaymentRecord) : PaymentRecord :=
  let totalBonuses := sumAmounts r.bonuses
  let totalDeductions := sumAmounts r.deductions
  let basicSalary := jsOr0 r.basicSalary
  let overtimeAmount := jsOr0 r.overtime.amount
  let grossPay := basicSalary + overtimeAmount + totalBonuses
  { r with
    totalDeductions := totalDeductions
    grossPay := grossPay
    netPay := grossPay - totalDeductions }

/-! ## Payroll controller (src/backend/controllers/paymentRecords.js) -/

/-- Raw `overtime` object of a request body: each subfield may be absent. -/
structure OvertimeInput where
  hours : Option ℚ
  rate : Option ℚ
  amount : Option ℚ
  deriving Repr, DecidableEq

/-- JS truthiness of a possibly-absent number: `undefined` and `0` are
falsy. -/
def jsTruthyNum (x : Option ℚ) : Bool :=
  match x with
  | none => false
  | some v => decide (v ≠ 0)

/-- Overtime processing shared by `createPaymentRecord` (lines 54–58) and
`updatePaymentRecord` (lines 261–267): default to `{0,0,0}` when absent;
when `hours` and `rate` are both truthy, overwrite `amount` with
`hours * rate`; missing subfields then take the schema defaults (0). -/
def processOvertime (o : Option OvertimeInput) : Overtime :=
  match o with
  | none => { hours := 0, rate := 0, amount := 0 }
  | some oi =>
    let amount :=
      if jsTruthyNum oi.hours && jsTruthyNum oi.rate then
        some (oi.hours.getD 0 * oi.rate.getD 0)
      else
        oi.amount
    { hours := oi.hours.getD 0
      rate := oi.rate.getD 0
      amount := amount.getD 0 }

/-- The request body of `POST /api/payment-records` after express-validator
accepted it.  `grossPay`, `totalDeductions` and `netPay` can appear in a
raw JSON body; the controller never destructures them, so they are carried
here to state that they are ignored. -/
structure CreateInput where
  employeeId : Nat
  weekStartDate : Int
  weekEndDate : Int
  basicSalary : ℚ
  overtime : Option OvertimeInput
  bonuses : Option (List MoneyItem)
  deductions : Option (List MoneyItem)
  paymentMethod : Option PayMethod
  notes : Option String
  grossPay : Option ℚ
  totalDeductions : Option ℚ
  netPay : Option ℚ
  deriving Repr, DecidableEq

/-- The payment-record collection plus the set of existing employee ids
(what `Employee.findById` can resolve) and a fresh-id counter for new
documents. -/
structure PayDb where
  employees : List Nat
  records : List PaymentRecord
  nextId : Nat
  deriving Repr, DecidableEq

/-- `PaymentRecord.findOne({employee, weekStartDate, weekEndDate})`. -/
def findOneTriple (db : List PaymentRecord) (e : Nat) (ws we : Int) :
    Option PaymentRecord :=
  db.find? (fun r => r.employee == e && r.weekStartDate == ws && r.weekEndDate == we)

/-- `PaymentRecord.findById`. -/
def findPR (db : List PaymentRecord) (rid : Nat) : Option PaymentRecord :=
  db.find? (fun r => r.rid == rid)

/-- The duplicate-week error response of `createPaymentRecord`
(lines 47–52). -/
def dupWeekError : ErrResponse :=
  { status := 400
    error := "Payment record already exists for this employee and week period" }

/-- The generic catch-all error response of `createPaymentRecord`
(lines 100–104). -/
def createServerError : ErrResponse :=
  { status := 500, error := "Failed to create payment record" }

/-- `createPaymentRecord` (paymentRecords.js lines 8–106), after
express-validator accepted the body: resolve the employee (404 when
missing), reject a duplicate `(employee, weekStartDate, weekEndDate)`
triple, process overtime, build the document and save it (the save runs
`preSave`).  Returns the response and the new collection. -/
def createPaymentRecord (db : PayDb) (inp : CreateInput) (callerId : Nat) :
    Except ErrResponse PaymentRecord × PayDb :=
  if ¬ db.employees.contains inp.employeeId then
    (Except.error { status := 404, error := "Employee not found" }, db)
  else
    match findOneTriple db.records inp.employeeId inp.weekStartDate inp.weekEndDate with
    | some _ => (Except.error dupWeekError, db)
    | none =>
      let doc : PaymentRecord :=
        { rid := db.nextId
          employee := inp.employeeId
          weekStartDate := inp.weekStartDate
          weekEndDate := inp.weekEndDate
          basicSalary := inp.basicSalary
          overtime := processOvertime inp.overtime
          bonuses := inp.bonuses.getD []
          deductions := inp.deductions.getD []
          grossPay := 0
          totalDeductions := 0
          netPay := 0
          paymentStatus := PayStatus.pending
          paymentDate := none
          paymentMethod := inp.paymentMethod.getD PayMethod.bank_transfer
          notes := inp.notes
          uploadedBy := callerId
          isViewed := false
          viewedAt := none }
      let saved := preSave doc
      (Except.ok saved,
        { db with records := db.records ++ [saved], nextId := db.nextId + 1 })

/-- The document `createPaymentRecord` builds right before saving. -/
def createdDoc (db : PayDb) (inp : CreateInput) (callerId : Nat) : PaymentRecord :=
  { rid := db.nextId
    employee := inp.employeeId
    weekStartDate := inp.weekStartDate
    weekEndDate := inp.weekEndDate
    basicSalary := inp.basicSalary
    overtime := processOvertime inp.overtime
    bonuses := inp.bonuses.getD []
    deductions := inp.deductions.getD []
    grossPay := 0
    totalDeductions := 0
    netPay := 0
    paymentStatus := PayStatus.pending
    paymentDate := none
    paymentMethod := inp.paymentMethod.getD PayMethod.bank_transfer
    notes := inp.notes
    uploadedBy := callerId
    isViewed := false
    viewedAt := none }

/-- The request body of `PUT /api/payment-records/:id`: any subset of the
updatable fields; the derived fields are carried to state that they are
ignored. -/
structure UpdateInput where
  basicSalary : Option ℚ
  overtime : Option OvertimeInput
  bonuses : Option (List MoneyItem)
  deductions : Option (List MoneyItem)
  paymentStatus : Option PayStatus
  paymentMethod : Option PayMethod
  notes : Option (Option String)
  grossPay : Option ℚ
  totalDeductions : Option ℚ
  netPay : Option ℚ
  deriving Repr, DecidableEq

/-- `if (req.body.basicSalary !== undefined) ...` (line 257). -/
def updBasicSalary (b : UpdateInput) (r : PaymentRecord) : PaymentRecord :=
  match b.basicSalary with
  | some v => { r with basicSalary := v }
  | none => r

/-- `if (req.body.overtime !== undefined) ...` (lines 261–267). -/
def updOvertime (b : UpdateInput) (r : PaymentRecord) : PaymentRecord :=
  match b.overtime with
  | some o => { r with overtime := processOvertime (some o) }
  | none => r

/-- `if (req.body.bonuses !== undefined) ...` (line 269). -/
def updBonuses (b : UpdateInput) (r : PaymentRecord) : PaymentRecord :=
  match b.bonuses with
  | some v => { r with bonuses := v }
  | none => r

/-- `if (req.body.deductions !== undefined) ...` (line 273). -/
def updDeductions (b : UpdateInput) (r : PaymentRecord) : PaymentRecord :=
  match b.deductions with
  | some v => { r with deductions := v }
  | none => r

/-- `if (req.body.paymentStatus !== undefined) ...` (line 277). -/
def updPaymentStatus (b : UpdateInput) (r : PaymentRecord) : PaymentRecord :=
  match b.paymentStatus with
  | some v => { r with paymentStatus := v }
  | none => r

/-- `if (req.body.paymentMethod !== undefined) ...` (line 281). -/
def updPaymentMethod (b : UpdateInput) (r : PaymentRecord) : PaymentRecord :=
  match b.paymentMethod with
  | some v => { r with paymentMethod := v }
  | none => r

/-- `if (req.body.notes !== undefined) ...` (line 285). -/
def updNotes (b : UpdateInput) (r : PaymentRecord) : PaymentRecord :=
  match b.notes with
  | some v => { r with notes := v }
  | none => r

/-- The `paid`-transition test (line 290).  It runs after `paymentStatus`
has already been assigned, exactly as in the source, so `r` here is the
already-mutated record. -/
def stampPaidDate (b : UpdateInput) (now : Int) (r : PaymentRecord) : PaymentRecord :=
  if b.paymentStatus = some PayStatus.paid ∧ r.paymentStatus ≠ PayStatus.paid then
    { r with paymentDate := some now }
  else r

/-- The field-by-field mutation of `updatePaymentRecord` (lines 256–292),
in source order. -/
def applyUpdate (r : PaymentRecord) (b : UpdateInput) (now : Int) : PaymentRecord :=
  stampPaidDate b now (updNotes b (updPaymentMethod b (updPaymentStatus b
    (updDeductions b (updBonuses b (updOvertime b (updBasicSalary b r)))))))

/-- `updatePaymentRecord` (paymentRecords.js lines 236–322): 404 when the
record does not exist, else apply the partial update and save (running
`preSave`).  The collection keeps every other record unchanged. -/
def updatePaymentRecord (db : PayDb) (rid : Nat) (b : UpdateInput) (now : Int) :
    Except ErrResponse PaymentRecord × PayDb :=
  match findPR db.records rid with
  | none =>
    (Except.error { status := 404, error := "Payment record not found" }, db)
  | some r =>
    let saved := preSave (applyUpdate r b now)
    (Except.ok saved,
      { db with records := db.records.map (fun x => if x.rid == rid then saved else x) })

/-- `markAsViewed` (PaymentRecord.js lines 200–204): set `isViewed = true`,
`viewedAt = now` and save (the save runs `preSave`). -/
def markAsViewed (r : PaymentRecord) (now : Int) : PaymentRecord :=
  preSave { r with isViewed := true, viewedAt := some now }

/-- The access branch of `getPaymentRecord` (paymentRecords.js
lines 184–231) on a record it found: an admin reads it unchanged; a
non-admin caller must resolve to an employee profile owning the record
(`403 Access denied` otherwise) and a first read triggers `markAsViewed`.
Returns the response and the (possibly updated) record. -/
def viewPaymentRecord (r : PaymentRecord) (callerEmp : Option Nat)
    (isAdmin : Bool) (now : Int) : Except ErrResponse PaymentRecord × PaymentRecord :=
  if isAdmin then (Except.ok r, r)
  else
    match callerEmp with
    | none => (Except.error { status := 403, error := "Access denied" }, r)
    | some e =>
      if r.employee == e then
        let r' := if r.isViewed then r else markAsViewed r now
        (Except.ok r', r')
      else (Except.error { status := 403, error := "Access denied" }, r)

/-! ## Location / attendance data model (models/Location.js) -/

/-- `status` enum of a Location: `['checked-in', 'checked-out']`. -/
inductive LocStatus where
  | checkedIn
  | checkedOut
  deriving Repr, DecidableEq

/-- A persisted `Location` document (one check-in session). -/
structure Location where
  lid : Nat
  employee : Nat
  latitude : ℚ
  longitude : ℚ
  address : String
  checkInTime : Int
  checkOutTime : Option Int
  status : LocStatus
  device : String
  ipAddress : Option String
  accuracy : Option ℚ
  lastUpdated : Int
  deriving Repr, DecidableEq

/-- An `Employee` document, restricted to the fields the attendance
controllers use: `_id`, the owning `user` reference and the denormalized
`locations` back-reference array. -/
structure Employee where
  eid : Nat
  user : Nat
  locations : List Nat
  deriving Repr, DecidableEq

/-- The attendance-side database: employees, locations and a fresh-id
counter for new location documents. -/
structure AttDb where
  employees : List Employee
  locations : List Location
  nextId : Nat
  deriving Repr, DecidableEq

/-- `Employee.findOne({user})`. -/
def findEmpByUser (db : List Employee) (u : Nat) : Option Employee :=
  db.find? (fun e => e.user == u)

/-- `Employee.findById`. -/
def findEmpById (db : List Employee) (e : Nat) : Option Employee :=
  db.find? (fun x => x.eid == e)

/-- `Location.findById`. -/
def findLoc (db : List Location) (l : Nat) : Option Location :=
  db.find? (fun x => x.lid == l)

/-- `Location.findOne({employee, status: 'checked-in'})`. -/
def findOpenSession (db : List Location) (e : Nat) : Option Location :=
  db.find? (fun x => x.employee == e && x.status == LocStatus.checkedIn)

/-! ## Raw numeric request fields

The coordinate fields of a check-in / live-update body arrive as strings.
`JsStr.num v` is a well-formed numeric string with value `v`; `JsStr.empty`
is `""`; `JsStr.malformed s` is a nonempty string on which JS
`parseFloat` yields `NaN`. -/

inductive JsStr where
  | num (v : ℚ)
  | empty
  | malformed (s : String)
  deriving Repr, DecidableEq

/-- JS `parseFloat`: `none` stands for `NaN`. -/
def parseFloat : JsStr → Option ℚ
  | JsStr.num v => some v
  | JsStr.empty => none
  | JsStr.malformed _ => none

/-- JS truthiness of a possibly-absent string value: `undefined` and `""`
are falsy, every nonempty string is truthy. -/
def jsTruthyStr (x : Option JsStr) : Bool :=
  match x with
  | none => false
  | some JsStr.empty => false
  | some _ => true

/-- The text of a raw string value, used by the address default
`Lat: ..., Lng: ...` of `checkIn`. -/
def jsStrText : JsStr → String
  | JsStr.num v => toString v
  | JsStr.empty => ""
  | JsStr.malformed s => s

/-- The express-validator chain of `POST /api/locations/checkin`
(routes/locations.js lines 18–27): `latitude` and `longitude` must be
nonempty.  (No numeric-format check is in the chain.) -/
def checkInValidationOk (latS lngS : JsStr) : Bool :=
  !(latS == JsStr.empty) && !(lngS == JsStr.empty)

/-- Mongoose's `Number` cast rejects `NaN` (`castNumber` asserts
`!isNaN(val)`), so persisting a document or update whose numeric field is
`NaN` throws a `CastError`.  The controllers catch it in their generic
`catch` block, producing a 500 response.  Modelled from the mongoose
library semantics the schema (`latitude/longitude/accuracy : Number`)
invokes. -/
def castError : ErrResponse :=
  { status := 500, error := "Cast to Number failed" }

/-- The Location row `checkIn` passes to `Location.create`: coordinates
from `parseFloat`, address defaulted to a coordinate string, device
defaulted, `accuracy` the parsed float when the raw value is truthy and
`null` otherwise (`accS.bind parseFloat` covers both, given the `NaN`
case is rejected separately), status `checked-in`. -/
def mkCheckInLoc (db : AttDb) (emp : Employee) (latV lngV : ℚ)
    (latS lngS : JsStr) (address device : Option String)
    (accS : Option JsStr) (ip : Option String) (now : Int) : Location :=
  { lid := db.nextId
    employee := emp.eid
    latitude := latV
    longitude := lngV
    address := address.getD
      ("Lat: " ++ jsStrText latS ++ ", Lng: " ++ jsStrText lngS)
    checkInTime := now
    checkOutTime := none
    status := LocStatus.checkedIn
    device := device.getD "Unknown Device"
    ipAddress := ip
    accuracy := accS.bind parseFloat
    lastUpdated := now }

/-- `checkIn` (locations.js lines 99–181): validator check, admins barred,
employee profile resolved from the caller, `already checked in` pre-check,
then `Location.create` with parsed floats (a `NaN` in `latitude`,
`longitude` or a truthy `accuracy` makes the create throw → 500 and no
row), and finally the push onto the employee's `locations` array. -/
def checkIn (db : AttDb) (callerUser : Nat) (isAdmin : Bool)
    (latS lngS : JsStr) (address : Option String) (device : Option String)
    (accS : Option JsStr) (ip : Option String) (now : Int) :
    Except ErrResponse Location × AttDb :=
  if ¬ checkInValidationOk latS lngS then
    (Except.error ⟨400, "Validation failed"⟩, db)
  else if isAdmin then
    (Except.error ⟨403, "Admins cannot check in. Only employees can check in."⟩, db)
  else
    match findEmpByUser db.employees callerUser with
    | none => (Except.error ⟨404, "Employee not found"⟩, db)
    | some emp =>
      match findOpenSession db.locations emp.eid with
      | some _ =>
        (Except.error ⟨400, "You are already checked in. Please check out first."⟩, db)
      | none =>
        match parseFloat latS, parseFloat lngS with
        | some latV, some lngV =>
          if jsTruthyStr accS ∧ accS.bind parseFloat = none then
            -- truthy accuracy parsed to NaN: the create throws a CastError
            (Except.error castError, db)
          else
            (Except.ok (mkCheckInLoc db emp latV lngV latS lngS address device accS ip now),
              { employees := db.employees.map (fun e =>
                  if e.eid == emp.eid then
                    { e with locations := e.locations
                        ++ [(mkCheckInLoc db emp latV lngV latS lngS address device accS ip now).lid] }
                  else e)
                locations := db.locations
                  ++ [mkCheckInLoc db emp latV lngV latS lngS address device accS ip now]
                nextId := db.nextId + 1 })
        | _, _ =>
          -- latitude or longitude parsed to NaN: the create throws a CastError
          (Except.error castError, db)

/-- `getLocation` (locations.js lines 53–94): 404 when missing; non-admin
callers must own the location (resolved through
`location.employee.user`), admins read any row. -/
def getLocation (db : AttDb) (callerUser : Nat) (isAdmin : Bool) (locId : Nat) :
    Except ErrResponse Location :=
  match findLoc db.locations locId with
  | none => Except.error ⟨404, "Location not found"⟩
  | some loc =>
    match findEmpById db.employees loc.employee with
    | none => Except.error ⟨500, "Server Error"⟩
    | some emp =>
      if ¬ isAdmin ∧ emp.user ≠ callerUser then
        Except.error ⟨403, "Not authorized to access this location"⟩
      else Except.ok loc

/-- `checkOut` (locations.js lines 186–230): 404 when missing; the caller
must be the owning employee's user (there is no admin bypass and no
check on the current status); then `checkOutTime := now` and
`status := 'checked-out'` are written unconditionally. -/
def checkOut (db : AttDb) (callerUser : Nat) (isAdmin : Bool) (locId : Nat)
    (now : Int) : Except ErrResponse Location × AttDb :=
  match findLoc db.locations locId with
  | none => (Except.error ⟨404, "Location not found"⟩, db)
  | some loc =>
    match findEmpById db.employees loc.employee with
    | none => (Except.error ⟨500, "Server Error"⟩, db)
    | some emp =>
      if emp.user ≠ callerUser then
        (Except.error ⟨403, "Not authorized to check out from this location"⟩, db)
      else
        let loc' := { loc with checkOutTime := some now, status := LocStatus.checkedOut }
        (Except.ok loc',
          { db with locations := db.locations.map (fun x =>
              if x.lid == locId then loc' else x) })

/-- `updateLiveLocation` (locations.js lines 280–346): 404 when missing;
the caller must be the owning employee's user (no admin bypass); the row
must still be `checked-in` (400 otherwise); then the coordinates are
overwritten (`accuracy` only when the raw value is truthy, a `NaN`
throws → 500) and `lastUpdated := now`. -/
def updateLiveLocation (db : AttDb) (callerUser : Nat) (isAdmin : Bool)
    (locId : Nat) (latS lngS : JsStr) (accS : Option JsStr) (now : Int) :
    Except ErrResponse Location × AttDb :=
  match findLoc db.locations locId with
  | none => (Except.error ⟨404, "Location not found"⟩, db)
  | some loc =>
    match findEmpById db.employees loc.employee with
    | none => (Except.error ⟨500, "Server Error"⟩, db)
    | some emp =>
      if emp.user ≠ callerUser then
        (Except.error ⟨403, "Not authorized to update this location"⟩, db)
      else if loc.status ≠ LocStatus.checkedIn then
        (Except.error ⟨400, "Cannot update location for checked-out session"⟩, db)
      else
        match parseFloat latS, parseFloat lngS with
        | some latV, some lngV =>
          if jsTruthyStr accS ∧ (accS.bind parseFloat) = none then
            (Except.error castError, db)
          else
            let accV := if jsTruthyStr accS then accS.bind parseFloat else loc.accuracy
            let loc' := { loc with
              latitude := latV
              longitude := lngV
              accuracy := accV
              lastUpdated := now }
            (Except.ok loc',
              { db with locations := db.locations.map (fun x =>
                  if x.lid == locId then loc' else x) })
        | _, _ => (Except.error castError, db)

/-- The number of open (`checked-in`) sessions employee `e` owns in the
location collection. -/
def openCount (db : List Location) (e : Nat) : Nat :=
  (db.filter (fun x => x.employee == e && x.status == LocStatus.checkedIn)).length

/-- The §3 attendance invariant: no employee ever has more than one open
(`checked-in`) session. -/
def atMostOneOpen (db : AttDb) : Prop :=
  ∀ e, openCount db.locations e ≤ 1

/-- The operation produced an error response and left the database
untouched (so no row was created or mutated). -/
@[reducible] def isErrorOutcome {α β : Type} (out : Except ErrResponse α × β)
    (db : β) : Prop :=
  (∃ e, out.1 = Except.error e) ∧ out.2 = db

/-- The §3 derived-field invariant of a payment record:
`grossPay = basicSalary + overtime.amount + Σ bonuses.amount`,
`totalDeductions = Σ deductions.amount`,
`netPay = grossPay − totalDeductions`. -/
def payInvariant (r : PaymentRecord) : Prop :=
  r.grossPay = r.basicSalary + r.overtime.amount + sumAmounts r.bonuses ∧
  r.totalDeductions = sumAmounts r.deductions ∧
  r.netPay = r.grossPay - r.totalDeductions

/-! ### Concrete data used by witnesses and counterexamples -/

/-- A payroll database with one employee and no records. -/
def c1db : PayDb := { employees := [1], records := [], nextId := 0 }

/-- A create body: salary 1000, one bonus of 50, one deduction of 20,
no overtime. -/
def c1inp : CreateInput :=
  { employeeId := 1, weekStartDate := 0, weekEndDate := 7
    basicSalary := 1000, overtime := none
    bonuses := some [{ description := "b", amount := 50 }]
    deductions := some [{ description := "d", amount := 20 }]
    paymentMethod := none, notes := none
    grossPay := none, totalDeductions := none, netPay := none }

/-- The record `createPaymentRecord c1db c1inp 2` persists. -/
def c1rec : PaymentRecord :=
  preSave
    { rid := 0, employee := 1, weekStartDate := 0, weekEndDate := 7
      basicSalary := 1000, overtime := processOvertime none
      bonuses := [{ description := "b", amount := 50 }]
      deductions := [{ description := "d", amount := 20 }]
      grossPay := 0, totalDeductions := 0, netPay := 0
      paymentStatus := PayStatus.pending, paymentDate := none
      paymentMethod := PayMethod.bank_transfer, notes := none
      uploadedBy := 2, isViewed := false, viewedAt := none }

/-- The database after that create. -/
def c1db2 : PayDb := (createPaymentRecord c1db c1inp 2).2

/-- An update body touching nothing. -/
def c1upd : UpdateInput :=
  { basicSalary := none, overtime := none, bonuses := none, deductions := none
    paymentStatus := none, paymentMethod := none, notes := none
    grossPay := none, totalDeductions := none, netPay := none }

/-- The record after updating `c1rec` with `c1upd`. -/
def c1rec2 : PaymentRecord := preSave (applyUpdate c1rec c1upd 5)

/-- An overtime body that supplies `hours = 2`, `rate = 10` and an explicit
`amount = 5`. -/
def c7ot : OvertimeInput := { hours := some 2, rate := some 10, amount := some 5 }

/-- A create body carrying `c7ot`. -/
def c7inp : CreateInput := { c1inp with overtime := some c7ot }

/-- A payment record owned by employee 1, not yet viewed. -/
def c9rec : PaymentRecord :=
  { rid := 3, employee := 1, weekStartDate := 0, weekEndDate := 7
    basicSalary := 100, overtime := { hours := 0, rate := 0, amount := 0 }
    bonuses := [], deductions := [], grossPay := 100, totalDeductions := 0
    netPay := 100, paymentStatus := PayStatus.pending, paymentDate := none
    paymentMethod := PayMethod.bank_transfer, notes := none, uploadedBy := 2
    isViewed := false, viewedAt := none }

/-- An update body that changes the salary and the status. -/
def c10upd : UpdateInput :=
  { c1upd with basicSalary := some 777, paymentStatus := some PayStatus.paid }

/-- An employee (id 1, user 10) owning location 5. -/
def c4emp : Employee := { eid := 1, user := 10, locations := [5] }

/-- An open (checked-in) session owned by employee 1. -/
def c4loc : Location :=
  { lid := 5, employee := 1, latitude := 1, longitude := 2, address := "x"
    checkInTime := 0, checkOutTime := none, status := LocStatus.checkedIn
    device := "dev", ipAddress := none, accuracy := none, lastUpdated := 0 }

/-- Attendance database for the authorization scenarios. -/
def c4db : AttDb := { employees := [c4emp], locations := [c4loc], nextId := 6 }

/-- A closed (checked-out) session of employee 1 with `checkOutTime = 100`. -/
def c6loc : Location := { c4loc with status := LocStatus.checkedOut, checkOutTime := some 100 }

/-- Attendance database holding only the closed session. -/
def c6db : AttDb := { employees := [c4emp], locations := [c6loc], nextId := 6 }

/-! ## Helper lemmas -/

theorem jsOr0_eq (x : ℚ) : jsOr0 x = x := by
  unfold jsOr0; split <;> simp_all

theorem preSave_payInvariant (r : PaymentRecord) : payInvariant (preSave r) := by
  unfold payInvariant preSave
  refine ⟨?_, rfl, rfl⟩
  simp [jsOr0_eq]

/-- The fields `updatePaymentRecord` never assigns. -/
def frameEq (r r' : PaymentRecord) : Prop :=
  r'.employee = r.employee ∧ r'.weekStartDate = r.weekStartDate ∧
  r'.weekEndDate = r.weekEndDate ∧ r'.uploadedBy = r.uploadedBy ∧
  r'.isViewed = r.isViewed ∧ r'.viewedAt = r.viewedAt

theorem frameEq_trans {a b c : PaymentRecord} (h1 : frameEq a b)
    (h2 : frameEq b c) : frameEq a c := by
  unfold frameEq at h1 h2 ⊢
  obtain ⟨e1, w1, x1, u1, i1, v1⟩ := h1
  obtain ⟨e2, w2, x2, u2, i2, v2⟩ := h2
  exact ⟨e2.trans e1, w2.trans w1, x2.trans x1, u2.trans u1, i2.trans i1, v2.trans v1⟩

theorem updBasicSalary_frame (b : UpdateInput) (r : PaymentRecord) :
    frameEq r (updBasicSalary b r) ∧ (updBasicSalary b r).overtime = r.overtime := by
  unfold updBasicSalary frameEq; split <;> simp

theorem updOvertime_frame (b : UpdateInput) (r : PaymentRecord) :
    frameEq r (updOvertime b r) := by
  unfold updOvertime frameEq; split <;> simp

theorem updBonuses_frame (b : UpdateInput) (r : PaymentRecord) :
    frameEq r (updBonuses b r) ∧ (updBonuses b r).overtime = r.overtime := by
  unfold updBonuses frameEq; split <;> simp

theorem updDeductions_frame (b : UpdateInput) (r : PaymentRecord) :
    frameEq r (updDeductions b r) ∧ (updDeductions b r).overtime = r.overtime := by
  unfold updDeductions frameEq; split <;> simp

theorem updPaymentStatus_frame (b : UpdateInput) (r : PaymentRecord) :
    frameEq r (updPaymentStatus b r) ∧ (updPaymentStatus b r).overtime = r.overtime := by
  unfold updPaymentStatus frameEq; split <;> simp

theorem updPaymentMethod_frame (b : UpdateInput) (r : PaymentRecord) :
    frameEq r (updPaymentMethod b r) ∧ (updPaymentMethod b r).overtime = r.overtime := by
  unfold updPaymentMethod frameEq; split <;> simp

theorem updNotes_frame (b : UpdateInput) (r : PaymentRecord) :
    frameEq r (updNotes b r) ∧ (updNotes b r).overtime = r.overtime := by
  unfold updNotes frameEq; split <;> simp

theorem stampPaidDate_frame (b : UpdateInput) (now : Int) (r : PaymentRecord) :
    frameEq r (stampPaidDate b now r) ∧ (stampPaidDate b now r).overtime = r.overtime := by
  unfold stampPaidDate frameEq; split <;> simp

theorem applyUpdate_frame (r : PaymentRecord) (b : UpdateInput) (now : Int) :
    frameEq r (applyUpdate r b now) := by
  unfold applyUpdate
  exact frameEq_trans (updBasicSalary_frame b r).1
    (frameEq_trans (updOvertime_frame b _)
    (frameEq_trans (updBonuses_frame b _).1
    (frameEq_trans (updDeductions_frame b _).1
    (frameEq_trans (updPaymentStatus_frame b _).1
    (frameEq_trans (updPaymentMethod_frame b _).1
    (frameEq_trans (updNotes_frame b _).1 (stampPaidDate_frame b now _).1))))))

theorem applyUpdate_overtime (r : PaymentRecord) (b : UpdateInput) (now : Int)
    (o : OvertimeInput) (h : b.overtime = some o) :
    (applyUpdate r b now).overtime = processOvertime (some o) := by
  unfold applyUpdate
  rw [(stampPaidDate_frame b now _).2, (updNotes_frame b _).2,
    (updPaymentMethod_frame b _).2, (updPaymentStatus_frame b _).2,
    (updDeductions_frame b _).2, (updBonuses_frame b _).2]
  unfold updOvertime
  rw [h]

theorem preSave_frame (r : PaymentRecord) : frameEq r (preSave r) := by
  unfold preSave frameEq; simp

theorem preSave_overtime (r : PaymentRecord) : (preSave r).overtime = r.overtime := rfl

theorem create_ok_eq (db : PayDb) (inp : CreateInput) (caller : Nat)
    (rc : PaymentRecord)
    (hc : (createPaymentRecord db inp caller).1 = Except.ok rc) :
    rc = preSave (createdDoc db inp caller) := by
  unfold createPaymentRecord at hc
  split at hc
  · exact absurd hc (by simp)
  · split at hc
    · exact absurd hc (by simp)
    · exact (Except.ok.inj hc).symm

theorem update_ok_payInvariant (db : PayDb) (rid : Nat) (b : UpdateInput)
    (now : Int) (ru : PaymentRecord)
    (hu : (updatePaymentRecord db rid b now).1 = Except.ok ru) :
    payInvariant ru := by
  unfold updatePaymentRecord at hu
  split at hu
  · exact absurd hu (by simp)
  · exact (Except.ok.inj hu) ▸ preSave_payInvariant _

theorem update_ok_overtime (db : PayDb) (rid : Nat) (b : UpdateInput)
    (now : Int) (oi : OvertimeInput) (ru : PaymentRecord)
    (hbo : b.overtime = some oi)
    (hu : (updatePaymentRecord db rid b now).1 = Except.ok ru) :
    ru.overtime = processOvertime (some oi) := by
  unfold updatePaymentRecord at hu
  split at hu
  · exact absurd hu (by simp)
  · have h := (Except.ok.inj hu).symm
    subst h
    rw [preSave_overtime]
    exact applyUpdate_overtime _ b now oi hbo

theorem processOvertime_amount (oi : OvertimeInput) :
    (processOvertime (some oi)).amount =
      if jsTruthyNum oi.hours && jsTruthyNum oi.rate then
        oi.hours.getD 0 * oi.rate.getD 0
      else oi.amount.getD 0 := by
  unfold processOvertime
  dsimp only
  split <;> rfl

/-! ## Claims -/

/-- Claim C1 (confirmed): after any `createPaymentRecord` or
`updatePaymentRecord` completes with a saved record, that record satisfies
`grossPay = basicSalary + overtime.amount + Σ bonuses.amount`,
`totalDeductions = Σ deductions.amount` and
`netPay = grossPay − totalDeductions`; and any client-supplied `grossPay`,
`totalDeductions` or `netPay` in the body is ignored: the operations give
identical results when those body fields vary. -/
theorem claim_C1 (db : PayDb) (inp : CreateInput) (caller : Nat)
    (db2 : PayDb) (rid : Nat) (b : UpdateInput) (now : Int)
    (g t n : Option ℚ) (rc ru : PaymentRecord)
    (hc : (createPaymentRecord db inp caller).1 = Except.ok rc)
    (hu : (updatePaymentRecord db2 rid b now).1 = Except.ok ru) :
    payInvariant rc ∧ payInvariant ru ∧
    createPaymentRecord db
        { inp with grossPay := g, totalDeductions := t, netPay := n } caller
      = createPaymentRecord db inp caller ∧
    updatePaymentRecord db2 rid
        { b with grossPay := g, totalDeductions := t, netPay := n } now
      = updatePaymentRecord db2 rid b now := by
  refine ⟨?_, update_ok_payInvariant db2 rid b now ru hu, rfl, rfl⟩
  rw [create_ok_eq db inp caller rc hc]
  exact preSave_payInvariant _

/-- Witness for C1 at a concrete create and a concrete update. -/
theorem claim_C1_witness :
    payInvariant c1rec ∧ payInvariant c1rec2 ∧
    createPaymentRecord c1db
        { c1inp with grossPay := some 999, totalDeductions := some 999, netPay := some 999 } 2
      = createPaymentRecord c1db c1inp 2 ∧
    updatePaymentRecord c1db2 0
        { c1upd with grossPay := some 999, totalDeductions := some 999, netPay := some 999 } 5
      = updatePaymentRecord c1db2 0 c1upd 5 :=
  claim_C1 c1db c1inp 2 c1db2 0 c1upd 5 (some 999) (some 999) (some 999)
    c1rec c1rec2 rfl rfl

/-- Claim C3 (confirmed): when a record with the same
`(employee, weekStartDate, weekEndDate)` triple already exists, a second
`createPaymentRecord` returns the dedicated duplicate-week error — which
differs from the generic server error — and inserts nothing: the database
is unchanged. -/
theorem claim_C3 (db : PayDb) (inp : CreateInput) (caller : Nat)
    (r0 : PaymentRecord)
    (hemp : db.employees.contains inp.employeeId = true)
    (hdup : findOneTriple db.records inp.employeeId inp.weekStartDate
      inp.weekEndDate = some r0) :
    createPaymentRecord db inp caller = (Except.error dupWeekError, db) ∧
    dupWeekError ≠ createServerError ∧ dupWeekError.status ≠ 500 := by
  refine ⟨?_, by decide, by decide⟩
  unfold createPaymentRecord
  rw [hemp, hdup]
  simp

/-- Witness for C3: re-creating `c1inp` against the database that already
holds its record. -/
theorem claim_C3_witness :
    c1db2.employees.contains c1inp.employeeId = true ∧
    findOneTriple c1db2.records c1inp.employeeId c1inp.weekStartDate
      c1inp.weekEndDate = some c1rec ∧
    (createPaymentRecord c1db2 c1inp 2 = (Except.error dupWeekError, c1db2) ∧
      dupWeekError ≠ createServerError ∧ dupWeekError.status ≠ 500) :=
  ⟨rfl, rfl, claim_C3 c1db2 c1inp 2 c1rec rfl rfl⟩

/-- Counterexample to C7 as stated: the body supplies `hours = 2`,
`rate = 10` and an explicit `amount = 5`, yet the persisted
`overtime.amount` is `20`, not the supplied `5` — an explicitly given
amount is NOT kept when hours and rate are nonzero. -/
theorem claim_C7_counterexample :
    (createPaymentRecord c1db c7inp 2).1
      = Except.ok (preSave (createdDoc c1db c7inp 2)) ∧
    c7ot.amount = some 5 ∧
    (preSave (createdDoc c1db c7inp 2)).overtime.amount = 20 ∧
    (20 : ℚ) ≠ 5 := by
  refine ⟨rfl, rfl, ?_, by norm_num⟩
  rw [preSave_overtime]
  show (processOvertime c7inp.overtime).amount = 20
  rw [show c7inp.overtime = some c7ot from rfl, processOvertime_amount]
  have hh : jsTruthyNum c7ot.hours = true := by
    simp only [jsTruthyNum, c7ot, decide_eq_true_eq]
    norm_num
  have hr : jsTruthyNum c7ot.rate = true := by
    simp only [jsTruthyNum, c7ot, decide_eq_true_eq]
    norm_num
  rw [hh, hr]
  simp only [Bool.and_self, if_true]
  show (2 : ℚ) * 10 = 20
  norm_num

/-- Claim C7 (corrected): whenever `overtime.hours` and `overtime.rate`
are both supplied and nonzero, the persisted `overtime.amount` equals
`hours * rate` — overriding any explicitly supplied amount; an explicitly
supplied amount is kept only when `hours` or `rate` is zero or missing.
Holds for both create and update. -/
theorem claim_C7 (db : PayDb) (inp : CreateInput) (caller : Nat)
    (db2 : PayDb) (rid : Nat) (b : UpdateInput) (now : Int)
    (oi : OvertimeInput) (rc ru : PaymentRecord)
    (hio : inp.overtime = some oi) (hbo : b.overtime = some oi)
    (hc : (createPaymentRecord db inp caller).1 = Except.ok rc)
    (hu : (updatePaymentRecord db2 rid b now).1 = Except.ok ru) :
    rc.overtime.amount =
      (if jsTruthyNum oi.hours && jsTruthyNum oi.rate then
        oi.hours.getD 0 * oi.rate.getD 0
      else oi.amount.getD 0) ∧
    ru.overtime.amount =
      (if jsTruthyNum oi.hours && jsTruthyNum oi.rate then
        oi.hours.getD 0 * oi.rate.getD 0
      else oi.amount.getD 0) := by
  constructor
  · rw [create_ok_eq db inp caller rc hc, preSave_overtime]
    show (processOvertime inp.overtime).amount = _
    rw [hio, processOvertime_amount]
  · rw [update_ok_overtime db2 rid b now oi ru hbo hu, processOvertime_amount]

/-- Witness for C7 with nonzero hours and rate (2 × 10 = 20). -/
theorem claim_C7_witness :
    c7inp.overtime = some c7ot ∧
    ({ c1upd with overtime := some c7ot } : UpdateInput).overtime = some c7ot ∧
    ((createPaymentRecord c1db c7inp 2).1
        = Except.ok (preSave (createdDoc c1db c7inp 2)) ∧
      (updatePaymentRecord c1db2 0 { c1upd with overtime := some c7ot } 5).1
        = Except.ok (preSave (applyUpdate c1rec
            { c1upd with overtime := some c7ot } 5))) ∧
    ((preSave (createdDoc c1db c7inp 2)).overtime.amount =
      (if jsTruthyNum c7ot.hours && jsTruthyNum c7ot.rate then
        c7ot.hours.getD 0 * c7ot.rate.getD 0
      else c7ot.amount.getD 0) ∧
    (preSave (applyUpdate c1rec { c1upd with overtime := some c7ot } 5)).overtime.amount =
      (if jsTruthyNum c7ot.hours && jsTruthyNum c7ot.rate then
        c7ot.hours.getD 0 * c7ot.rate.getD 0
      else c7ot.amount.getD 0)) :=
  ⟨rfl, rfl, ⟨rfl, rfl⟩,
    claim_C7 c1db c7inp 2 c1db2 0 { c1upd with overtime := some c7ot } 5 c7ot
      (preSave (createdDoc c1db c7inp 2))
      (preSave (applyUpdate c1rec { c1upd with overtime := some c7ot } 5))
      rfl rfl rfl rfl⟩

/-- Claim C9 (confirmed): an employee's first read of their own record
sets `isViewed = true` and `viewedAt = now`, and every subsequent read by
that employee returns the record unchanged — `viewedAt` keeps the first
read's timestamp. -/
theorem claim_C9 (r : PaymentRecord) (e : Nat) (t1 t2 : Int)
    (hown : r.employee = e) (hnv : r.isViewed = false) :
    (viewPaymentRecord r (some e) false t1).1 = Except.ok (markAsViewed r t1) ∧
    (markAsViewed r t1).isViewed = true ∧
    (markAsViewed r t1).viewedAt = some t1 ∧
    viewPaymentRecord (markAsViewed r t1) (some e) false t2
      = (Except.ok (markAsViewed r t1), markAsViewed r t1) := by
  have hemp : (markAsViewed r t1).employee = r.employee := rfl
  refine ⟨?_, rfl, rfl, ?_⟩
  · unfold viewPaymentRecord
    simp [hown, hnv]
  · unfold viewPaymentRecord
    have hisv : (markAsViewed r t1).isViewed = true := rfl
    simp [hemp, hown, hisv]

/-- Witness for C9: employee 1 reads `c9rec` at time 50, then again at
time 60. -/
theorem claim_C9_witness :
    (viewPaymentRecord c9rec (some 1) false 50).1
      = Except.ok (markAsViewed c9rec 50) ∧
    (markAsViewed c9rec 50).isViewed = true ∧
    (markAsViewed c9rec 50).viewedAt = some 50 ∧
    viewPaymentRecord (markAsViewed c9rec 50) (some 1) false 60
      = (Except.ok (markAsViewed c9rec 50), markAsViewed c9rec 50) :=
  claim_C9 c9rec 1 50 60 rfl rfl

/-- Claim C10 (confirmed): every `updatePaymentRecord` call on an existing
record — whatever subset of updatable fields the body carries — leaves the
record's `employee`, `weekStartDate`, `weekEndDate`, `uploadedBy`,
`isViewed` and `viewedAt` unchanged; in particular the unique week-window
triple is preserved. -/
theorem claim_C10 (db : PayDb) (rid : Nat) (b : UpdateInput) (now : Int)
    (r : PaymentRecord) (h : findPR db.records rid = some r) :
    ∃ r', (updatePaymentRecord db rid b now).1 = Except.ok r' ∧
      r'.employee = r.employee ∧ r'.weekStartDate = r.weekStartDate ∧
      r'.weekEndDate = r.weekEndDate ∧ r'.uploadedBy = r.uploadedBy ∧
      r'.isViewed = r.isViewed ∧ r'.viewedAt = r.viewedAt := by
  refine ⟨preSave (applyUpdate r b now), ?_, ?_⟩
  · unfold updatePaymentRecord
    rw [h]
  · exact frameEq_trans (applyUpdate_frame r b now) (preSave_frame _)

/-- Witness for C10: updating `c1rec` (salary and status change). -/
theorem claim_C10_witness :
    findPR c1db2.records 0 = some c1rec ∧
    ∃ r', (updatePaymentRecord c1db2 0 c10upd 9).1 = Except.ok r' ∧
      r'.employee = c1rec.employee ∧ r'.weekStartDate = c1rec.weekStartDate ∧
      r'.weekEndDate = c1rec.weekEndDate ∧ r'.uploadedBy = c1rec.uploadedBy ∧
      r'.isViewed = c1rec.isViewed ∧ r'.viewedAt = c1rec.viewedAt :=
  ⟨rfl, claim_C10 c1db2 0 c10upd 9 c1rec rfl⟩

/-! ## Attendance lemmas and claims -/

theorem openCount_append (l1 l2 : List Location) (e : Nat) :
    openCount (l1 ++ l2) e = openCount l1 e + openCount l2 e := by
  unfold openCount
  rw [List.filter_append, List.length_append]

theorem openCount_singleton (x : Location) (e : Nat) :
    openCount [x] e
      = if x.employee == e && x.status == LocStatus.checkedIn then 1 else 0 := by
  unfold openCount
  rcases h : (x.employee == e && x.status == LocStatus.checkedIn) <;>
    simp [List.filter, h]

theorem openCount_eq_zero_of_none (l : List Location) (e : Nat)
    (h : findOpenSession l e = none) : openCount l e = 0 := by
  unfold findOpenSession at h
  rw [List.find?_eq_none] at h
  unfold openCount
  rw [List.length_eq_zero]
  exact List.filter_eq_nil_iff.mpr h

/-- Any `checkIn` call preserves the at-most-one-open-session invariant:
either it returns an error leaving the database untouched, or the
pre-check guaranteed the employee had no open session before the new row
is appended. -/
theorem checkIn_atMostOneOpen (db : AttDb) (u : Nat) (adm : Bool)
    (latS lngS : JsStr) (a d : Option String) (accS : Option JsStr)
    (ip : Option String) (now : Int) (hinv : atMostOneOpen db) :
    atMostOneOpen (checkIn db u adm latS lngS a d accS ip now).2 := by
  unfold checkIn
  repeat' split
  all_goals try exact hinv
  rename_i hval hadm2 xe emp hfind xl hopen xq1 xq2 latV lngV hlat hlng hnan
  intro e
  dsimp only
  rw [openCount_append, openCount_singleton]
  dsimp only [mkCheckInLoc]
  by_cases he : emp.eid = e
  · subst he
    rw [openCount_eq_zero_of_none _ _ hopen]
    simp
  · have hb : (emp.eid == e) = false := by simp [he]
    rw [hb]
    simpa using hinv e

/-- `checkIn` on a malformed coordinate: every branch either rejects
earlier or hits the `NaN` cast failure, so the call errors and the
database is unchanged. -/
theorem checkIn_malformed (db : AttDb) (u : Nat) (adm : Bool)
    (latS lngS : JsStr) (a d : Option String) (accS : Option JsStr)
    (ip : Option String) (now : Int) (s : String)
    (hm : latS = JsStr.malformed s ∨ lngS = JsStr.malformed s ∨
      accS = some (JsStr.malformed s)) :
    isErrorOutcome (checkIn db u adm latS lngS a d accS ip now) db := by
  unfold checkIn
  repeat' split
  all_goals try exact ⟨⟨_, rfl⟩, rfl⟩
  all_goals rcases hm with h | h | h <;> simp_all [parseFloat, jsTruthyStr]

/-- `updateLiveLocation` on a malformed coordinate: every branch either
rejects earlier or hits the `NaN` cast failure, so the call errors and the
database is unchanged. -/
theorem liveUpdate_malformed (db : AttDb) (u : Nat) (adm : Bool)
    (locId : Nat) (latS lngS : JsStr) (accS : Option JsStr) (now : Int)
    (s : String)
    (hm : latS = JsStr.malformed s ∨ lngS = JsStr.malformed s ∨
      accS = some (JsStr.malformed s)) :
    isErrorOutcome (updateLiveLocation db u adm locId latS lngS accS now) db := by
  unfold updateLiveLocation
  repeat' split
  all_goals try exact ⟨⟨_, rfl⟩, rfl⟩
  all_goals rcases hm with h | h | h <;> simp_all [parseFloat, jsTruthyStr]

/-- Claim C2 (confirmed): a `checkIn` by an employee who already has an
open (`checked-in`) session fails with the dedicated
"already checked in" 400 error and creates no row; and any `checkIn`
preserves the at-most-one-open-session-per-employee invariant. -/
theorem claim_C2 (db : AttDb) (u : Nat) (adm : Bool) (latS lngS : JsStr)
    (a d : Option String) (accS : Option JsStr) (ip : Option String)
    (now : Int) (emp : Employee) (op : Location)
    (db' : AttDb) (u' : Nat) (adm' : Bool) (latS' lngS' : JsStr)
    (a' d' : Option String) (accS' : Option JsStr) (ip' : Option String)
    (now' : Int)
    (hv : checkInValidationOk latS lngS = true) (hadm : adm = false)
    (hemp : findEmpByUser db.employees u = some emp)
    (hopen : findOpenSession db.locations emp.eid = some op)
    (hinv : atMostOneOpen db') :
    checkIn db u adm latS lngS a d accS ip now
      = (Except.error
          ⟨400, "You are already checked in. Please check out first."⟩, db) ∧
    atMostOneOpen (checkIn db' u' adm' latS' lngS' a' d' accS' ip' now').2 := by
  refine ⟨?_, checkIn_atMostOneOpen db' u' adm' latS' lngS' a' d' accS' ip' now' hinv⟩
  subst hadm
  unfold checkIn
  simp [hv, hemp, hopen]

/-- Witness for C2: employee 1 (user 10) already has open session 5 in
`c4db`; a second check-in is rejected and the invariant holds after any
check-in against `c4db`. -/
theorem claim_C2_witness :
    checkInValidationOk (JsStr.num 1) (JsStr.num 2) = true ∧
    findEmpByUser c4db.employees 10 = some c4emp ∧
    findOpenSession c4db.locations c4emp.eid = some c4loc ∧
    (checkIn c4db 10 false (JsStr.num 1) (JsStr.num 2) none none none none 99
        = (Except.error
            ⟨400, "You are already checked in. Please check out first."⟩, c4db) ∧
      atMostOneOpen
        (checkIn c4db 10 false (JsStr.num 1) (JsStr.num 2) none none none none 99).2) :=
  ⟨rfl, rfl, rfl,
    claim_C2 c4db 10 false (JsStr.num 1) (JsStr.num 2) none none none none 99
      c4emp c4loc c4db 10 false (JsStr.num 1) (JsStr.num 2) none none none none 99
      rfl rfl rfl rfl (fun _ => List.length_filter_le _ _)⟩

/-- Counterexample to C4 as stated: an admin (user 99, role admin) issuing
check-out and live-update on employee 1's location is DENIED with 403 —
the claim says the admin request succeeds, but these two handlers check
only ownership and have no admin bypass. -/
theorem claim_C4_counterexample :
    (checkOut c4db 99 true 5 100).1
      = Except.error ⟨403, "Not authorized to check out from this location"⟩ ∧
    (updateLiveLocation c4db 99 true 5 (JsStr.num 3) (JsStr.num 4) none 100).1
      = Except.error ⟨403, "Not authorized to update this location"⟩ :=
  ⟨rfl, rfl⟩

/-- Claim C4 (corrected): a non-owner employee receives 403 on read,
check-out and live-update of another employee's Location, and an admin
succeeds on read; but check-out and live-update enforce plain ownership
with no admin bypass, so an admin (or any non-owner, whatever the role)
is also denied there and the database is unchanged. -/
theorem claim_C4 (db : AttDb) (caller : Nat) (locId : Nat) (now : Int)
    (adm : Bool) (latS lngS : JsStr) (accS : Option JsStr)
    (loc : Location) (emp : Employee)
    (hloc : findLoc db.locations locId = some loc)
    (hemp : findEmpById db.employees loc.employee = some emp)
    (hne : emp.user ≠ caller) :
    getLocation db caller false locId
      = Except.error ⟨403, "Not authorized to access this location"⟩ ∧
    getLocation db caller true locId = Except.ok loc ∧
    checkOut db caller adm locId now
      = (Except.error ⟨403, "Not authorized to check out from this location"⟩, db) ∧
    updateLiveLocation db caller adm locId latS lngS accS now
      = (Except.error ⟨403, "Not authorized to update this location"⟩, db) := by
  refine ⟨?_, ?_, ?_, ?_⟩
  · unfold getLocation
    simp [hloc, hemp, hne]
  · unfold getLocation
    simp [hloc, hemp]
  · unfold checkOut
    simp [hloc, hemp, hne]
  · unfold updateLiveLocation
    simp [hloc, hemp, hne]

/-- Witness for C4 (amended): employee A is user 20, the location is owned
by employee 1 whose user is 10. -/
theorem claim_C4_witness :
    findLoc c4db.locations 5 = some c4loc ∧
    findEmpById c4db.employees c4loc.employee = some c4emp ∧
    c4emp.user ≠ (20 : Nat) ∧
    (getLocation c4db 20 false 5
        = Except.error ⟨403, "Not authorized to access this location"⟩ ∧
      getLocation c4db 20 true 5 = Except.ok c4loc ∧
      checkOut c4db 20 true 5 100
        = (Except.error ⟨403, "Not authorized to check out from this location"⟩, c4db) ∧
      updateLiveLocation c4db 20 true 5 (JsStr.num 3) (JsStr.num 4) none 100
        = (Except.error ⟨403, "Not authorized to update this location"⟩, c4db)) :=
  ⟨rfl, rfl, by decide,
    claim_C4 c4db 20 5 100 true (JsStr.num 3) (JsStr.num 4) none c4loc c4emp
      rfl rfl (by decide)⟩

/-- Claim C5 (confirmed): a live-update on a Location that is not
`checked-in`, by its owner, fails with the 400
"Cannot update location for checked-out session" error and leaves the
database — hence the row's latitude, longitude, accuracy and
lastUpdated — unchanged. -/
theorem claim_C5 (db : AttDb) (caller : Nat) (adm : Bool) (locId : Nat)
    (latS lngS : JsStr) (accS : Option JsStr) (now : Int)
    (loc : Location) (emp : Employee)
    (hloc : findLoc db.locations locId = some loc)
    (hemp : findEmpById db.employees loc.employee = some emp)
    (hown : emp.user = caller)
    (hst : loc.status ≠ LocStatus.checkedIn) :
    updateLiveLocation db caller adm locId latS lngS accS now
      = (Except.error ⟨400, "Cannot update location for checked-out session"⟩, db) := by
  unfold updateLiveLocation
  simp [hloc, hemp, hown, hst]

/-- Witness for C5: the owner (user 10) live-updates the checked-out
session `c6loc`. -/
theorem claim_C5_witness :
    findLoc c6db.locations 5 = some c6loc ∧
    findEmpById c6db.employees c6loc.employee = some c4emp ∧
    c4emp.user = 10 ∧ c6loc.status ≠ LocStatus.checkedIn ∧
    updateLiveLocation c6db 10 false 5 (JsStr.num 3) (JsStr.num 4) none 77
      = (Except.error ⟨400, "Cannot update location for checked-out session"⟩, c6db) :=
  ⟨rfl, rfl, rfl, by decide,
    claim_C5 c6db 10 false 5 (JsStr.num 3) (JsStr.num 4) none 77 c6loc c4emp
      rfl rfl rfl (by decide)⟩

/-- Counterexample to C6 as stated: `c6loc` is already checked out with
`checkOutTime = 100`, yet the owner's repeated check-out at time 200 is
ACCEPTED and overwrites the stored timestamp — the claim says it is
rejected at the API boundary. -/
theorem claim_C6_counterexample :
    c6loc.status = LocStatus.checkedOut ∧ c6loc.checkOutTime = some 100 ∧
    (checkOut c6db 10 false 5 200).1
      = Except.ok { c6loc with checkOutTime := some 200, status := LocStatus.checkedOut } ∧
    (checkOut c6db 10 false 5 200).2.locations
      = [{ c6loc with checkOutTime := some 200, status := LocStatus.checkedOut }] ∧
    (some 200 : Option Int) ≠ some 100 :=
  ⟨rfl, rfl, rfl, rfl, by decide⟩

/-- Claim C6 (corrected): `checkOut` performs no status check, so a
check-out call on a non-checked-in Location by its owner is ACCEPTED, not
rejected: it unconditionally sets `status = checked-out` and overwrites
the previously stored `checkOutTime` with the current time. -/
theorem claim_C6 (db : AttDb) (caller : Nat) (adm : Bool) (locId : Nat)
    (now : Int) (loc : Location) (emp : Employee)
    (hloc : findLoc db.locations locId = some loc)
    (hemp : findEmpById db.employees loc.employee = some emp)
    (hown : emp.user = caller)
    (hst : loc.status ≠ LocStatus.checkedIn) :
    (checkOut db caller adm locId now).1
      = Except.ok { loc with checkOutTime := some now, status := LocStatus.checkedOut } := by
  unfold checkOut
  simp [hloc, hemp, hown]

/-- Witness for C6 (amended): the owner re-checks-out `c6loc` at time 200. -/
theorem claim_C6_witness :
    findLoc c6db.locations 5 = some c6loc ∧
    findEmpById c6db.employees c6loc.employee = some c4emp ∧
    c4emp.user = 10 ∧ c6loc.status ≠ LocStatus.checkedIn ∧
    (checkOut c6db 10 false 5 200).1
      = Except.ok { c6loc with checkOutTime := some 200, status := LocStatus.checkedOut } :=
  ⟨rfl, rfl, rfl, by decide,
    claim_C6 c6db 10 false 5 200 c6loc c4emp rfl rfl rfl (by decide)⟩

/-- Claim C8 (confirmed): when latitude, longitude or accuracy is a
malformed (nonempty, non-numeric) string, both `checkIn` and
`updateLiveLocation` fail with an error — at the latest when mongoose's
`Number` cast rejects the `NaN` — and the database is unchanged, so no
Location row is ever created or mutated with a `NaN` value. -/
theorem claim_C8 (db : AttDb) (u : Nat) (adm : Bool) (latS lngS : JsStr)
    (a d : Option String) (accS : Option JsStr) (ip : Option String)
    (now : Int) (locId : Nat) (s : String)
    (hm : latS = JsStr.malformed s ∨ lngS = JsStr.malformed s ∨
      accS = some (JsStr.malformed s)) :
    isErrorOutcome (checkIn db u adm latS lngS a d accS ip now) db ∧
    isErrorOutcome (updateLiveLocation db u adm locId latS lngS accS now) db :=
  ⟨checkIn_malformed db u adm latS lngS a d accS ip now s hm,
    liveUpdate_malformed db u adm locId latS lngS accS now s hm⟩

/-- Witness for C8: a malformed latitude string "abc". -/
theorem claim_C8_witness :
    (JsStr.malformed "abc" = JsStr.malformed "abc" ∨
      JsStr.num 2 = JsStr.malformed "abc" ∨
      (none : Option JsStr) = some (JsStr.malformed "abc")) ∧
    (isErrorOutcome
        (checkIn c4db 10 false (JsStr.malformed "abc") (JsStr.num 2)
          none none none none 99) c4db ∧
      isErrorOutcome
        (updateLiveLocation c4db 10 false 5 (JsStr.malformed "abc")
          (JsStr.num 2) none 99) c4db) :=
  ⟨Or.inl rfl,
    claim_C8 c4db 10 false (JsStr.malformed "abc") (JsStr.num 2)
      none none none none 99 5 "abc" (Or.inl rfl)⟩

end EMS
